import Mathlib

/-!
Verification development for the `marketplace_UI` diagnostic toolkit:
a shallow embedding of `textual-validator.py` (static validation passes,
auto-fix engine) and `textual-debug.py` (live widget-tree extraction,
layout analysis, event tracing), together with theorems settling the
specification's claims about them.

Modelling conventions:
* Python strings are Lean `String`s; the Python operators `in`
  (substring), `startswith`, `strip`, `lower`, `split` and `count` are
  embedded below as executable functions on `List Char`.
* Python's mutable validator state (`self.errors`, `self.warnings`,
  `self.suggestions`, `self.fixes_applied`) is a `VState` record; each
  validation sub-pass contributes per-channel message lists, appended in
  program order (the three channels are separate Python lists, so
  splitting a pass into one pure delta per channel preserves exactly the
  observable per-channel order of `append` calls).
* Python exceptions are `Except` values; a raised exception carries the
  message and the state accumulated before the raise.
-/

namespace Textual

/-! ## Embedded Python string primitives -/

/-- Python `s.startswith(pat)` on character lists. -/
def startsWithL : List Char → List Char → Bool
  | _, [] => true
  | [], _ :: _ => false
  | a :: as, b :: bs => a == b && startsWithL as bs

/-- Python substring test `pat in s` on character lists. -/
def containsL (s pat : List Char) : Bool :=
  match s with
  | [] => startsWithL [] pat
  | _ :: rest => startsWithL s pat || containsL rest pat

/-- Python `pat in s` for strings. -/
def strContains (s pat : String) : Bool :=
  containsL s.data pat.data

/-- Python `s.startswith(pat)` for strings. -/
def strStartsWith (s pat : String) : Bool :=
  startsWithL s.data pat.data

/-- Python whitespace characters recognised by `str.strip()`. -/
def isPySpace (c : Char) : Bool :=
  c == ' ' || c == '\t' || c == '\n' || c == '\r' || c == '\x0b' || c == '\x0c'

/-- Python `s.strip()` on character lists. -/
def stripL (l : List Char) : List Char :=
  ((l.dropWhile isPySpace).reverse.dropWhile isPySpace).reverse

/-- ASCII lowering of one character (the embedded sources only ever lower
ASCII text, so the full Unicode table of `str.lower` is not needed). -/
def lowerChar (c : Char) : Char :=
  if c.toNat ≥ 65 && c.toNat ≤ 90 then Char.ofNat (c.toNat + 32) else c

/-- Python `s.lower()` on character lists (ASCII fragment). -/
def lowerL (l : List Char) : List Char :=
  l.map lowerChar

/-- Python `s.split(c)` on character lists: `"".split(c) = ['']`, and a
separator between every two fields. -/
def splitOnChar (c : Char) : List Char → List (List Char)
  | [] => [[]]
  | a :: as =>
    match splitOnChar c as with
    | [] => [[]]
    | l :: ls => if a == c then [] :: l :: ls else (a :: l) :: ls

/-- Python `sep.join(fields)` for a one-character separator. -/
def joinWithChar (c : Char) : List (List Char) → List Char
  | [] => []
  | [l] => l
  | l :: l2 :: ls => l ++ c :: joinWithChar c (l2 :: ls)

/-- Python `enumerate(xs, start)`. -/
def enumFrom : Nat → List α → List (Nat × α)
  | _, [] => []
  | i, a :: as => (i, a) :: enumFrom (i + 1) as

/-! ## The Python AST fragment used by the validator

`ast.parse` output is modelled by `Py`; only the node kinds that the
validator passes inspect are represented.  `lineno` is carried only on
`call` nodes because `extract_widgets_from_ast` is the only embedded
code that reads a line number. -/

inductive Py where
  | module (body : List Py)
  | importFrom (mod : Option String) (names : List String)
  | importPlain (names : List String)
  | classDef (nm : String) (bases : List Py) (body : List Py)
  | functionDef (nm : String) (args : List String) (returns : Option Py) (body : List Py)
  | assign (targets : List Py) (value : Py)
  | exprStmt (value : Py)
  | name (ident : String)
  | attribute (value : Py) (attr : String)
  | call (func : Py) (args : List Py) (lineno : Nat)
  | yieldExpr (value : Option Py)
  | constStr (s : String)

/-- Child nodes in `ast.iter_child_nodes` order (fields in `_fields`
order; identifier/string fields are not AST nodes). -/
def children : Py → List Py
  | .module body => body
  | .importFrom _ _ => []
  | .importPlain _ => []
  | .classDef _ bases body => bases ++ body
  | .functionDef _ _ ret body => body ++ ret.toList
  | .assign targets value => targets ++ [value]
  | .exprStmt v => [v]
  | .name _ => []
  | .attribute v _ => [v]
  | .call f args _ => f :: args
  | .yieldExpr v => v.toList
  | .constStr _ => []

mutual

/-- Number of nodes of a tree (used as the exact fuel for the walk). -/
def pySize : Py → Nat
  | .module body => 1 + pyListSize body
  | .importFrom _ _ => 1
  | .importPlain _ => 1
  | .classDef _ bases body => 1 + pyListSize bases + pyListSize body
  | .functionDef _ _ ret body => 1 + pyOptSize ret + pyListSize body
  | .assign ts v => 1 + pyListSize ts + pySize v
  | .exprStmt v => 1 + pySize v
  | .name _ => 1
  | .attribute v _ => 1 + pySize v
  | .call f args _ => 1 + pySize f + pyListSize args
  | .yieldExpr v => 1 + pyOptSize v
  | .constStr _ => 1

def pyListSize : List Py → Nat
  | [] => 0
  | x :: xs => pySize x + pyListSize xs

def pyOptSize : Option Py → Nat
  | none => 0
  | some x => pySize x

end

/-- One step of `ast.walk`'s deque loop: pop a node, yield it, push its
children at the back.  `fuel` is consumed once per yielded node; the walk
entry point supplies exactly the number of nodes in the tree. -/
def walkAux : Nat → List Py → List Py
  | _, [] => []
  | 0, _ :: _ => []
  | fuel + 1, n :: rest => n :: walkAux fuel (rest ++ children n)

/-- `ast.walk(t)`: the start node followed by all descendants in
breadth-first order. -/
def walk (t : Py) : List Py :=
  walkAux (pySize t) [t]

/-! ## Schema registry (`VALIDATION CONSTANTS` in `textual-validator.py`)

The Python sets are modelled as lists; only membership is ever used. -/

def VALID_WIDGETS : List String :=
  ["Button", "Label", "Input", "Static", "TextArea", "Table",
   "DataTable", "ListView", "ListItem", "Tabs", "TabPane",
   "Switch", "Checkbox", "RadioSet", "RadioButton", "ProgressBar",
   "Select", "OptionList", "DirectoryTree", "FileTree",
   "DataGrid", "Tree", "Markdown", "Log", "Pretty", "Sparkline",
   "Gauge", "Horizontal", "Vertical", "Container", "ContentSwitcher",
   "Placeholder", "LoadingIndicator", "Collapsible", "Badge",
   "Tag", "Toast", "ScreenSwitch", "ContentTab"]

def VALID_CONTAINERS : List String :=
  ["Container", "Horizontal", "Vertical", "Tabs", "TabPane",
   "Collapsible", "ContentSwitcher", "ScreenSwitch"]

def VALID_EVENTS : List String :=
  ["Mount", "Unmount", "Key", "Click", "Button", "Input",
   "ListView", "Tab", "Switch", "CheckBox", "Tree", "Log",
   "Message", "Event"]

/-- `DEPRECATED_WIDGETS` is a Python set literal; the source stores no
replacement names (a comment says the replacements are Footer/Header). -/
def DEPRECATED_WIDGETS : List String :=
  ["FooterTui", "HeaderTui"]

/-! ## Validator state and per-pass message deltas

Each `_validate_*` method of `TextualValidator` only appends messages to
the channels `errors` / `warnings` / `suggestions`.  Below, every pass is
embedded as one pure message-list per channel, computed from the node
list produced by `ast.walk`; `run_validators` concatenates them in the
order in which `validate_file` runs the passes. -/

structure VState where
  errors : List String
  warnings : List String
  suggestions : List String
  fixes_applied : List String
deriving Repr, DecidableEq

def initState : VState := ⟨[], [], [], []⟩

/-- Names added to the `imports` set by one node in `_validate_imports`
(the Python set is modelled as a list; only membership is used). -/
def importStep (acc : List String) (n : Py) : List String :=
  match n with
  | .importFrom mod names =>
    if mod.any (fun m => strContains m "textual") then acc ++ names else acc
  | .importPlain names => acc ++ names
  | _ => acc

def collectImports (nodes : List Py) : List String :=
  nodes.foldl importStep []

def missingImportError : String :=
  "Missing required import: from textual.app import App"

def import_errors (nodes : List Py) : List String :=
  let imports := collectImports nodes
  if !(imports.contains "App") && !(imports.contains "app") then
    [missingImportError]
  else []

def import_warnings (nodes : List Py) : List String :=
  let imports := collectImports nodes
  if !(imports.contains "ComposeResult") && !(imports.contains "compose_result") then
    ["Consider importing ComposeResult for type hints"]
  else []

/-- Base match of `_validate_class_structure`: only `ast.Attribute` bases
are inspected; a base that is a plain `ast.Name` is never matched. -/
def isAppClassBase : Py → Bool
  | .attribute v attr =>
    (match v with | .name ident => ident == "App" | _ => false) || attr == "App"
  | _ => false

def isAppClass : Py → Bool
  | .classDef _ bases _ => bases.any isAppClassBase
  | _ => false

def appClasses (nodes : List Py) : List Py :=
  nodes.filter isAppClass

def hasComposeMethod (body : List Py) : Bool :=
  body.any (fun n => match n with | .functionDef nm _ _ _ => nm == "compose" | _ => false)

/-- `_check_return_annot`. -/
def check_return_annot (ret : Option Py) (expected : String) : Bool :=
  match ret with
  | some (.name ident) => ident == expected
  | _ => false

def app_method_errors (nm : String) (body : List Py) : List String :=
  if hasComposeMethod body then []
  else ["App class " ++ nm ++ " is missing \x27compose\x27 method"]

def app_method_warnings (nm : String) (body : List Py) : List String :=
  body.flatMap (fun n =>
    match n with
    | .functionDef fnm _ ret _ =>
      if fnm == "compose" then
        (if ret.isNone then
          ["Method \x27compose\x27 in " ++ nm ++ " should have return type hint (ComposeResult)"]
         else [])
        ++ (if !(check_return_annot ret "ComposeResult") then
          ["Method \x27compose\x27 in " ++ nm ++ " should return ComposeResult"]
         else [])
      else []
    | _ => [])

def app_method_suggestions (nm : String) (body : List Py) : List String :=
  body.flatMap (fun n =>
    match n with
    | .functionDef fnm _ _ _ =>
      if fnm == "on_key" then ["Consider using BINDINGS instead of on_key in " ++ nm]
      else []
    | _ => [])

def class_errors (nodes : List Py) : List String :=
  match appClasses nodes with
  | [] => ["No class inheriting from App found"]
  | cls => cls.flatMap (fun c =>
      match c with
      | .classDef nm _ body => app_method_errors nm body
      | _ => [])

def class_warnings (nodes : List Py) : List String :=
  match appClasses nodes with
  | [] => []
  | cls => cls.flatMap (fun c =>
      match c with
      | .classDef nm _ body => app_method_warnings nm body
      | _ => [])

def class_suggestions (nodes : List Py) : List String :=
  match appClasses nodes with
  | [] => []
  | cls => cls.flatMap (fun c =>
      match c with
      | .classDef nm _ body => app_method_suggestions nm body
      | _ => [])

/-- Error emitted by `_validate_widgets` for one node: an attribute
access `x.W` with `x` a plain name and `W` deprecated.  The message
inserts `node.attr` in both slots — the replacement slot names the
deprecated identifier itself. -/
def widget_error_of (n : Py) : Option String :=
  match n with
  | .attribute (.name _) attr =>
    if DEPRECATED_WIDGETS.contains attr then
      some ("Deprecated widget \x27" ++ attr ++ "\x27 found. Use \x27" ++ attr
        ++ "\x27 replacement instead")
    else none
  | _ => none

def widget_errors (nodes : List Py) : List String :=
  nodes.filterMap widget_error_of

def isComposeFn : Py → Bool
  | .functionDef nm _ _ _ => nm == "compose"
  | _ => false

def isYieldNode : Py → Bool
  | .yieldExpr _ => true
  | _ => false

/-- `_validate_layouts`: yields of the first `compose` function in walk
order (empty when no `compose` exists). -/
def yield_statements (nodes : List Py) : List Py :=
  match nodes.find? isComposeFn with
  | none => []
  | some f => (walk f).filter isYieldNode

/-- `_check_widget_in_yield`, as the warning it may append. -/
def check_widget_in_yield_warning (n : Py) : List String :=
  match n with
  | .call (.attribute _ attr) _ _ =>
    if VALID_CONTAINERS.contains attr then []
    else if !(VALID_WIDGETS.contains attr) && !(VALID_CONTAINERS.contains attr) then
      ["Unknown widget or container: " ++ attr]
    else []
  | _ => []

def layout_warnings (nodes : List Py) : List String :=
  let ys := yield_statements nodes
  (if ys.isEmpty then ["No yield statements found in compose method"] else [])
  ++ ys.flatMap (fun y =>
      match y with
      | .yieldExpr (some v) => check_widget_in_yield_warning v
      | _ => [])

/-- Insertion into the `event_handlers` dict: an existing key keeps its
position and gets the new value, a fresh key is appended. -/
def dictInsert (k v : String) : List (String × String) → List (String × String)
  | [] => [(k, v)]
  | (k2, v2) :: rest =>
    if k2 == k then (k, v) :: rest else (k2, v2) :: dictInsert k v rest

/-- First phase of `_validate_event_handlers`: collect the handler dict
and the missing-parameter warnings, in walk order. -/
def handlerScanStep (acc : List (String × String) × List String) (n : Py) :
    List (String × String) × List String :=
  match n with
  | .functionDef nm args _ _ =>
    if strStartsWith nm "on_" then
      let parts := splitOnChar '_' (nm.data.drop 3)
      let handlers :=
        if parts.length ≥ 2 then dictInsert nm (String.mk parts.headI) acc.1 else acc.1
      let warns :=
        if args.isEmpty then
          acc.2 ++ ["Event handler \x27" ++ nm ++ "\x27 should have event parameter"]
        else acc.2
      (handlers, warns)
    else acc
  | _ => acc

def handler_warnings (nodes : List Py) : List String :=
  let scan := nodes.foldl handlerScanStep ([], [])
  scan.2 ++ scan.1.filterMap (fun hv =>
    if !(VALID_EVENTS.contains hv.2) then
      some ("Unknown event type \x27" ++ hv.2 ++ "\x27 in handler \x27" ++ hv.1 ++ "\x27")
    else none)

/-- `_validate_css` collection step: assignments `CSS = <string literal>`
(a first target that is not a plain name, or a non-constant value, is
skipped; real ASTs always have at least one target). -/
def cssStep (acc : List String) (n : Py) : List String :=
  match n with
  | .assign (.name tid :: _) (.constStr s) => if tid == "CSS" then acc ++ [s] else acc
  | _ => acc

def css_strings (nodes : List Py) : List String :=
  nodes.foldl cssStep []

/-- Per-line checks of `_validate_css_content` (the input is the
1-based line number with the raw line; the line is stripped first). -/
def css_line_errors (iv : Nat × List Char) : List String :=
  let i := iv.1
  let line := stripL iv.2
  if line.isEmpty || startsWithL line "/*".data then []
  else
    (if line.contains '\x7b' && !(line.contains '\x7d') then
      ["Unclosed CSS block starting at line " ++ toString i]
     else [])
    ++ (if line.count '\x7b' != line.count '\x7d' then
      ["Mismatched braces in CSS at line " ++ toString i]
     else [])
    ++ (if containsL (lowerL line) "import".data then
      ["CSS import statement found at line " ++ toString i ++ " (not supported)"]
     else [])

def css_content_errors (css : String) : List String :=
  (enumFrom 1 (splitOnChar '\n' css.data)).flatMap css_line_errors

def css_content_warnings (css : String) : List String :=
  if !(strContains css "quantum:") && !(strContains css "dark:") then
    ["Consider defining \x27quantum\x27 or \x27dark\x27 theme variants"]
  else []

def css_errors (nodes : List Py) : List String :=
  (css_strings nodes).flatMap css_content_errors

def css_warnings (nodes : List Py) : List String :=
  (css_strings nodes).flatMap css_content_warnings

def yieldCount (f : Py) : Nat :=
  ((walk f).filter isYieldNode).length

/-- `_check_compose_best_practices`, suggestion channel. -/
def bp_suggestions (nodes : List Py) : List String :=
  nodes.flatMap (fun n =>
    match n with
    | .functionDef nm _ ret _ =>
      if nm == "compose" then
        (if ret.isNone then ["Add return type hint to compose method"] else [])
      else []
    | _ => [])

/-- `_check_compose_best_practices`, warning channel. -/
def bp_warnings (nodes : List Py) : List String :=
  nodes.flatMap (fun n =>
    match n with
    | .functionDef nm _ _ _ =>
      if nm == "compose" then
        (if yieldCount n < 2 then
          ["compose method should yield at least Header and Footer"]
         else [])
      else []
    | _ => [])

/-- Python class name of a node, as it appears in an `AttributeError`
message. -/
def typeNamePy : Py → String
  | .module _ => "Module"
  | .importFrom _ _ => "ImportFrom"
  | .importPlain _ => "Import"
  | .classDef _ _ _ => "ClassDef"
  | .functionDef _ _ _ _ => "FunctionDef"
  | .assign _ _ => "Assign"
  | .exprStmt _ => "Expr"
  | .name _ => "Name"
  | .attribute _ _ => "Attribute"
  | .call _ _ _ => "Call"
  | .yieldExpr _ => "Yield"
  | .constStr _ => "Constant"

/-- One step of `_validate_performance`: `node.func.value.id` is read
without an `isinstance` guard, so a `query_one` call whose receiver is
not a plain name raises `AttributeError` (carried with the suggestions
appended before the raise). -/
def perfStep (acc : Nat × List String) (n : Py) :
    Except (String × List String) (Nat × List String) :=
  match n with
  | .call (.attribute v attr) _ _ =>
    if attr == "query_one" then
      let qc := acc.1 + 1
      match v with
      | .name ident =>
        if ident == "self" then
          .ok (qc, acc.2 ++ ["Consider caching query_one results to avoid repeated DOM queries"])
        else .ok (qc, acc.2)
      | _ => .error ("\x27" ++ typeNamePy v ++ "\x27 object has no attribute \x27id\x27", acc.2)
    else .ok acc
  | _ => .ok acc

def perf_result (nodes : List Py) :
    Except (String × List String) (List String × List String) :=
  match nodes.foldlM perfStep (0, []) with
  | .error e => .error e
  | .ok (qc, sugg) =>
    .ok (sugg,
      if qc > 5 then ["Found " ++ toString qc ++ " query_one calls. Consider caching results."]
      else [])

/-- All passes of `validate_file` in program order (imports, class
structure, widgets, layouts, event handlers, CSS, best practices,
performance), splitting each pass into its per-channel contribution.  An
exception escaping a pass (only `_validate_performance` can raise on the
modelled fragment) carries the state accumulated before the raise. -/
def run_validators (tree : Py) : Except (String × VState) VState :=
  let L := walk tree
  let base : VState := {
    errors := import_errors L ++ class_errors L ++ widget_errors L ++ css_errors L
    warnings := import_warnings L ++ class_warnings L ++ layout_warnings L
      ++ handler_warnings L ++ css_warnings L ++ bp_warnings L
    suggestions := class_suggestions L ++ bp_suggestions L
    fixes_applied := [] }
  match perf_result L with
  | .ok (sugg, warns) =>
    .ok { base with
      warnings := base.warnings ++ warns
      suggestions := base.suggestions ++ sugg }
  | .error (msg, sugg) =>
    .error (msg, { base with suggestions := base.suggestions ++ sugg })

/-! ## Auto-Fix Engine -/

/-- The loop of `_fix_missing_imports` locating the first line that
starts with `from textual.app import`; `none` when no line matches. -/
def fixFirstImportLine : List (List Char) → Option (List (List Char))
  | [] => none
  | l :: ls =>
    if startsWithL l "from textual.app import".data then
      some ((if containsL l "ComposeResult".data then l
             else l ++ ", ComposeResult".data) :: ls)
    else
      match fixFirstImportLine ls with
      | none => none
      | some ls2 => some (l :: ls2)

/-- `_fix_missing_imports`: without a matching line the combined import
is inserted at the top; with one, `, ComposeResult` is appended to it
unless already present (the `replace` call in the source replaces the
prefix with itself and is a no-op). -/
def fix_missing_imports (content : String) : String :=
  let lines := splitOnChar '\n' content.data
  let newLines :=
    match fixFirstImportLine lines with
    | none => "from textual.app import App, ComposeResult".data :: lines
    | some ls => ls
  String.mk (joinWithChar '\n' newLines)

/-- `_attempt_fixes`: apply `_fix_missing_imports` once per error that
contains `Missing required import`; only when the resulting text differs
is the file rewritten, the fix recorded, the error set cleared and the
re-run warning appended. -/
def attempt_fixes (st : VState) (content : String) : VState × String :=
  let newContent := st.errors.foldl
    (fun c e => if strContains e "Missing required import" then fix_missing_imports c else c)
    content
  if newContent = content then (st, content)
  else
    ({ st with
        fixes_applied := st.fixes_applied ++ ["Fixed missing imports"]
        errors := []
        warnings := st.warnings ++ ["Auto-fixes applied. Re-run validation."] },
     newContent)

/-- `validate_file` for a file that exists and parses to `tree` with text
`content`: run all passes, optionally attempt fixes, and return
`len(self.errors) == 0` together with the final state and file text.  A
raised exception is caught and appended as a `Validation error`. -/
def validate_file (tree : Py) (content : String) (fixFlag : Bool) :
    Bool × VState × String :=
  match run_validators tree with
  | .ok st =>
    let r := if fixFlag && !st.errors.isEmpty then attempt_fixes st content else (st, content)
    (r.1.errors.isEmpty, r.1, r.2)
  | .error (msg, st) =>
    (false, { st with errors := st.errors ++ ["Validation error: " ++ msg] }, content)

/-! ## Live debugger data model (`textual-debug.py`) -/

structure WidgetInfo where
  name : String
  type : String
  id : Option String
  classes : List String
  parent : Option String
  children : List String
  size : Option (Nat × Nat)
  visible : Bool
deriving Repr, DecidableEq

structure EventInfo where
  event_type : String
  timestamp : Int
  source : String
  target : String
  dataTypeName : String
deriving Repr, DecidableEq

structure DebugConfig where
  trace_events : Bool
  trace_widgets : Bool
  trace_layout : Bool
  profile_performance : Bool
  log_file : Option String
  verbose : Bool
deriving Repr, DecidableEq

/-- A node of the live object graph reachable from `app.screen`: its
class name, its `id()` (unique object identity), its `id` attribute, its
classes, and its `_nodes` children (a node without a `_nodes` attribute
is modelled by an empty list — the loop body is skipped either way). -/
inductive LiveNode where
  | mk (ty : String) (oid : Nat) (wid : Option String) (classes : List String)
       (kids : List LiveNode)

def LiveNode.ty : LiveNode → String
  | .mk t _ _ _ _ => t

def LiveNode.oid : LiveNode → Nat
  | .mk _ o _ _ _ => o

def LiveNode.kids : LiveNode → List LiveNode
  | .mk _ _ _ _ k => k

/-- `f"{widget_type}_{id(node)}"`. -/
def widgetName (n : LiveNode) : String :=
  n.ty ++ "_" ++ toString n.oid

mutual

/-- `_extract_widgets_from_node`: the node's `WidgetInfo` followed by the
recursively extracted lists of all its children.  The Python loop runs
`widget_info.children.extend([w.name for w in child_widgets])` on the
full recursive result of each child, so `children` collects the names of
every widget extracted beneath the node — all strict descendants, not
only the direct children. -/
def extract_widgets_from_node : LiveNode → Option String → List WidgetInfo
  | .mk ty oid wid cls kids, parent =>
    let wname := ty ++ "_" ++ toString oid
    let rest := extractKids kids wname
    { name := wname, type := ty, id := wid, classes := cls, parent := parent,
      children := rest.map (fun w => w.name), size := none, visible := true } :: rest

def extractKids : List LiveNode → String → List WidgetInfo
  | [], _ => []
  | c :: cs, wname => extract_widgets_from_node c (some wname) ++ extractKids cs wname

end

mutual

/-- A live node together with all its descendants, in the extraction
order. -/
def subnodes : LiveNode → List LiveNode
  | .mk ty oid wid cls kids => .mk ty oid wid cls kids :: subnodesList kids

def subnodesList : List LiveNode → List LiveNode
  | [] => []
  | c :: cs => subnodes c ++ subnodesList cs

end

/-- Names of the strict descendants of a live node. -/
def strictDescNames (n : LiveNode) : List String :=
  (subnodesList n.kids).map widgetName

/-- The reflection surface of a running application instance used by
`get_widget_tree`: the truthiness of `app._context` and the object graph
under `app.screen`. -/
structure AppInstance where
  hasContext : Bool
  screen : LiveNode

/-- `get_widget_tree`: walk the screen graph when the app has a context
(a completed walk; the per-node exception handler never fires in the
model, where attribute access is total). -/
def get_widget_tree (app : AppInstance) : List WidgetInfo :=
  if app.hasContext then extract_widgets_from_node app.screen none else []

/-! ## Layout analysis (`analyze_layout`) -/

/-- Python `==` between a `str` and a `WidgetInfo` dataclass value: the
dataclass `__eq__` returns `NotImplemented` for an operand of another
class and the comparison falls back to identity, hence always `False`. -/
def pyEqStrWidgetInfo (_s : String) (_w : WidgetInfo) : Bool :=
  false

/-- Message of the `TypeError` raised by `widgets_without_containers > 5`
(a `list > int` comparison). -/
def layoutTypeErrorMsg : String :=
  "\x27>\x27 not supported between instances of \x27list\x27 and \x27int\x27"

/-- `analyze_layout`: `containers` is the list of container-typed
widgets; `widgets_without_containers` filters with `w.type not in
containers`, a membership test of a string in a list of `WidgetInfo`
values that never matches, so every widget is kept; the next statement
evaluates `widgets_without_containers > 5`, comparing that list with an
int, which raises `TypeError` in Python 3 — on every input, before any
nesting-depth or container statistics can be emitted.  The local `lines`
built before the raise are lost with it. -/
def analyze_layout (widgets : List WidgetInfo) : Except String String :=
  let containers := widgets.filter
    (fun w => ["Container", "Horizontal", "Vertical", "Grid"].contains w.type)
  let widgets_without_containers := widgets.filter
    (fun w => !(containers.any (fun c => pyEqStrWidgetInfo w.type c)))
  let _ := widgets_without_containers
  Except.error layoutTypeErrorMsg

/-- Parent-chain depth chase from the unreachable tail of
`analyze_layout` (the `while parent:` loop): starting from a widget with
a parent, the depth is 1 plus one increment per chain step.  `fuel`
bounds the chase; on the acyclic inputs considered here
`widgets.length + 1` is never exhausted (the Python loop would simply
not terminate on a cyclic chain). -/
def chaseDepth (widgets : List WidgetInfo) : Nat → Option String → Nat → Nat
  | _, none, acc => acc
  | 0, some _, acc => acc
  | fuel + 1, some p, acc =>
    match widgets.find? (fun w => w.name == p) with
    | some pw => chaseDepth widgets fuel pw.parent (acc + 1)
    | none => acc + 1

/-- The `max_depth` that the unreachable tail of `analyze_layout` would
compute. -/
def max_nesting_depth (widgets : List WidgetInfo) : Nat :=
  widgets.foldl
    (fun md w =>
      match w.parent with
      | none => md
      | some p => max md (chaseDepth widgets (widgets.length + 1) (some p) 1))
    0

/-! ## Static widget extraction and the `analyze_app_file` driver -/

/-- `extract_widgets_from_ast`: one `WidgetInfo` per call whose function
is an attribute access with a recognised widget name, keyed by call line
number. -/
def extract_widgets_from_ast (tree : Py) : List WidgetInfo :=
  (walk tree).foldl
    (fun acc n =>
      match n with
      | .call (.attribute _ attr) _ ln =>
        if ["Container", "Button", "Label", "Input", "Static"].contains attr then
          acc ++ [{ name := attr ++ "_" ++ toString ln, type := attr, id := none,
                    classes := [], parent := none, children := [], size := none,
                    visible := true }]
        else acc
      | _ => acc)
    []

def sepLine : String :=
  String.mk (List.replicate 70 '=')

/-- Lookup in the `widget_map` dict `{w.name: w}`: a duplicated name
keeps the last binding, hence the reversed search. -/
def widgetMapGet (widgets : List WidgetInfo) (nm : String) : Option WidgetInfo :=
  widgets.reverse.find? (fun w => w.name == nm)

/-- `render_widget` inside `format_widget_tree`: one line for the widget
followed by the rendered children found in the map, cut off below
`max_depth`. -/
def render_widget (widgets : List WidgetInfo) (max_depth : Nat) (w : WidgetInfo)
    (depth : Nat) : List String :=
  if max_depth < depth then []
  else
    let base := String.mk (List.replicate (2 * depth) ' ') ++ "├─ " ++ w.type
    let base := match w.id with | some i => base ++ " (id: " ++ i ++ ")" | none => base
    let base :=
      if w.classes.isEmpty then base
      else base ++ " [classes: " ++ String.intercalate ", " w.classes ++ "]"
    let base := if w.visible then base else base ++ " (hidden)"
    base :: w.children.flatMap (fun c =>
      match widgetMapGet widgets c with
      | some cw => render_widget widgets max_depth cw (depth + 1)
      | none => [])
termination_by max_depth + 1 - depth
decreasing_by omega

/-- `format_widget_tree` (default `max_depth` is 5 at every call site in
the embedded code). -/
def format_widget_tree (widgets : List WidgetInfo) (max_depth : Nat) : String :=
  if widgets.isEmpty then "No widgets found"
  else
    let roots := widgets.filter (fun w =>
      w.parent.isNone || !(widgets.any (fun x => w.parent == some x.name)))
    String.intercalate "\n"
      (["WIDGET TREE", sepLine]
        ++ roots.flatMap (fun r => render_widget widgets max_depth r 0)
        ++ [sepLine])

/-- The widget-tree section printed by `analyze_app_file`. -/
def widget_section (tree : Py) (config : DebugConfig) : List String :=
  if config.trace_widgets || config.verbose then
    [format_widget_tree (extract_widgets_from_ast tree) 5]
  else []

/-- The printed output of `analyze_app_file` for a file that reads and
parses to `tree`.  The profiling branch dynamically imports and runs the
target application; its output is external to the static model and is
passed in as `profileOut`.  The whole body runs inside `try`: an
exception from `analyze_layout` aborts the remaining sections and the
generic handler prints `Error analyzing app: ...` (followed by a
traceback, not modelled). -/
def analyze_app_file (tree : Py) (config : DebugConfig) (profileOut : List String) :
    List String :=
  let widgets := extract_widgets_from_ast tree
  if config.trace_layout || config.verbose then
    match analyze_layout widgets with
    | .ok s =>
      widget_section tree config ++ ["\n" ++ s]
        ++ (if config.profile_performance then profileOut else [])
    | .error e => widget_section tree config ++ ["Error analyzing app: " ++ e]
  else
    widget_section tree config
      ++ (if config.profile_performance then profileOut else [])

/-! ## Event tracing (`TextualDebugger`) -/

structure DebuggerState where
  events_log : List EventInfo
  start_time : Int
deriving Repr, DecidableEq

/-- `TextualDebugger._trace_event`: append one `EventInfo` timestamped
relative to session start (`now` stands for `time.time()`). -/
def trace_event (dbg : DebuggerState) (event_type : String) (eventStr : String)
    (eventTypeName : String) (now : Int) : DebuggerState :=
  { dbg with events_log := dbg.events_log ++
      [{ event_type := event_type, timestamp := now - dbg.start_time,
         source := eventStr, target := "app", dataTypeName := eventTypeName }] }

/-- The reflection surface of a live application instance used by
`_setup_event_tracing`: its class name, its attribute names (`dir`),
and its callable handler methods (already bound, so they take only the
event argument). -/
structure LiveApp (Ev Ret : Type) where
  className : String
  attrNames : List String
  methods : List (String × (Ev → Ret))

def LiveApp.hasAttr (app : LiveApp Ev Ret) (nm : String) : Bool :=
  app.attrNames.contains nm

def LiveApp.getMethod (app : LiveApp Ev Ret) (nm : String) : Option (Ev → Ret) :=
  (app.methods.find? (fun p => p.1 == nm)).map (fun p => p.2)

/-- The method names that `_setup_event_tracing` wraps: every name from
`dir(app)` starting with `on_` whose attribute is callable. -/
def wrappedHandlerNames (app : LiveApp Ev Ret) : List String :=
  app.attrNames.filter (fun n => strStartsWith n "on_" && (app.getMethod n).isSome)

/-- Calling `app.<nm>(event)` on the unwrapped application. -/
def original_handler_call (app : LiveApp Ev Ret) (nm : String) (ev : Ev) :
    Except String Ret :=
  match app.getMethod nm with
  | some f => .ok (f ev)
  | none => .error ("AttributeError: \x27" ++ app.className
      ++ "\x27 object has no attribute \x27" ++ nm ++ "\x27")

/-- Calling `app.<nm>(event)` after `_setup_event_tracing` wrapped it.
The wrapper function `handler(self, event)` is installed with
`.__get__(self.app, type(self.app))`, so the `self` inside its body is
the application instance, not the debugger.  Its first statement,
`self._trace_event(name, event)`, therefore looks `_trace_event` up on
the application object: for an application without such an attribute
(the collaborator framework defines none) the lookup raises
`AttributeError` before anything is recorded or delegated; only if the
application happens to define its own `_trace_event` does the call reach
`original_methods[name](event)`. -/
def traced_handler_call (app : LiveApp Ev Ret) (nm : String) (ev : Ev) :
    Except String Ret :=
  if app.hasAttr "_trace_event" then
    match app.getMethod nm with
    | some f => .ok (f ev)
    | none => .error ("KeyError: \x27" ++ nm ++ "\x27")
  else
    .error ("AttributeError: \x27" ++ app.className
      ++ "\x27 object has no attribute \x27_trace_event\x27")

/-! ## Concrete inputs referenced by the claim theorems -/

/-- AST of the file
`class MyApp(App):`
`    def compose(self): yield Button("x")`
— the scenario of the spec's example: the base `App` is a plain
`ast.Name` node and `Button("x")` is a call of a plain name. -/
def c2Tree : Py :=
  .module [.classDef "MyApp" [.name "App"]
    [.functionDef "compose" ["self"] none
      [.exprStmt (.yieldExpr (some (.call (.name "Button") [.constStr "x"] 2)))]]]

/-- The validator state produced for `c2Tree`. -/
def c2State : VState :=
  { errors := [missingImportError, "No class inheriting from App found"]
    warnings := ["Consider importing ComposeResult for type hints",
                 "compose method should yield at least Header and Footer"]
    suggestions := ["Add return type hint to compose method"]
    fixes_applied := [] }

/-- AST of a file whose only validation error is the missing `App`
one, but which already contains a `from textual.app import` line (the
line imports only `ComposeResult`):
`from textual.app import ComposeResult`
`class MyApp(textual.App):`
`    def compose(self) -> ComposeResult:`
`        yield self.Button("a")`
`        yield self.Static("b")` -/
def c4Tree : Py :=
  .module [
    .importFrom (some "textual.app") ["ComposeResult"],
    .classDef "MyApp" [.attribute (.name "textual") "App"]
      [.functionDef "compose" ["self"] (some (.name "ComposeResult"))
        [.exprStmt (.yieldExpr (some (.call (.attribute (.name "self") "Button")
           [.constStr "a"] 4))),
         .exprStmt (.yieldExpr (some (.call (.attribute (.name "self") "Static")
           [.constStr "b"] 5)))]]]

/-- The source text corresponding to `c4Tree`. -/
def c4Content : String :=
  "from textual.app import ComposeResult\nclass MyApp(textual.App):\n    def compose(self) -> ComposeResult:\n        yield self.Button(\"a\")\n        yield self.Static(\"b\")"

/-- The validator state produced for `c4Tree`. -/
def c4State : VState :=
  { errors := [missingImportError], warnings := [], suggestions := [],
    fixes_applied := [] }

/-- AST of a file whose only validation error is the missing `App`
one and which has no `from textual.app import` line at all:
`class MyApp(textual.App):`
`    def compose(self) -> ComposeResult:`
`        yield self.Button("a")`
`        yield self.Static("b")` -/
def c4FixBody : List Py :=
  [.classDef "MyApp" [.attribute (.name "textual") "App"]
    [.functionDef "compose" ["self"] (some (.name "ComposeResult"))
      [.exprStmt (.yieldExpr (some (.call (.attribute (.name "self") "Button")
         [.constStr "a"] 3))),
       .exprStmt (.yieldExpr (some (.call (.attribute (.name "self") "Static")
         [.constStr "b"] 4)))]]]

/-- The source text corresponding to `Py.module c4FixBody`. -/
def c4FixContent : String :=
  "class MyApp(textual.App):\n    def compose(self) -> ComposeResult:\n        yield self.Button(\"a\")\n        yield self.Static(\"b\")"

/-- The AST node of the line `_fix_missing_imports` inserts; re-parsing
the fixed text yields the original module body prefixed by exactly this
statement. -/
def newImportNode : Py :=
  .importFrom (some "textual.app") ["App", "ComposeResult"]

/-- The validator state produced for `Py.module c4FixBody`. -/
def c4FixState : VState :=
  { errors := [missingImportError]
    warnings := ["Consider importing ComposeResult for type hints"]
    suggestions := []
    fixes_applied := [] }

/-- AST of a fully well-formed file (all imports, an `App` subclass by
attribute base, an annotated `compose` with two known-widget yields). -/
def goodTree : Py :=
  .module [
    .importFrom (some "textual.app") ["App", "ComposeResult"],
    .classDef "MyApp" [.attribute (.name "textual") "App"]
      [.functionDef "compose" ["self"] (some (.name "ComposeResult"))
        [.exprStmt (.yieldExpr (some (.call (.attribute (.name "self") "Button")
           [.constStr "a"] 4))),
         .exprStmt (.yieldExpr (some (.call (.attribute (.name "self") "Static")
           [.constStr "b"] 5)))]]]

/-- The single-line style block of the spec's example scenario,
`Screen { background: red;` (unbalanced opening brace). -/
def c6Css : String :=
  "Screen \x7b background: red;"

/-- A file carrying `c6Css` as its `CSS` class attribute. -/
def c6Tree : Py :=
  .module [.assign [.name "CSS"] (.constStr c6Css)]

/-- The message `_validate_widgets` emits for a deprecated identifier
`a`: both slots name `a` itself. -/
def deprecatedMsg (a : String) : String :=
  "Deprecated widget \x27" ++ a ++ "\x27 found. Use \x27" ++ a
    ++ "\x27 replacement instead"

/-- A file in which the deprecated identifier `FooterTui` occurs as a
bare name call, `FooterTui()`. -/
def c7Tree : Py :=
  .module [.exprStmt (.call (.name "FooterTui") [] 1)]

/-- A file in which the deprecated identifier `FooterTui` occurs as an
attribute access `x.FooterTui`. -/
def c7bTree : Py :=
  .module [.exprStmt (.attribute (.name "x") "FooterTui")]

/-- A three-level live object graph: a screen containing a container
containing a button. -/
def chainScreen : LiveNode :=
  .mk "Screen" 1 none []
    [.mk "Vertical" 2 none []
      [.mk "Button" 3 none [] []]]

/-- A running app instance whose screen is `chainScreen`. -/
def chainApp : AppInstance :=
  { hasContext := true, screen := chainScreen }

/-- A widget list forming a parent chain of nesting depth exactly 6. -/
def depth6Widgets : List WidgetInfo :=
  [{ name := "w1", type := "Container", id := none, classes := [], parent := none,
     children := ["w2"], size := none, visible := true },
   { name := "w2", type := "Vertical", id := none, classes := [], parent := some "w1",
     children := ["w3"], size := none, visible := true },
   { name := "w3", type := "Horizontal", id := none, classes := [], parent := some "w2",
     children := ["w4"], size := none, visible := true },
   { name := "w4", type := "Container", id := none, classes := [], parent := some "w3",
     children := ["w5"], size := none, visible := true },
   { name := "w5", type := "Vertical", id := none, classes := [], parent := some "w4",
     children := ["w6"], size := none, visible := true },
   { name := "w6", type := "Button", id := none, classes := [], parent := some "w5",
     children := [], size := none, visible := true }]

/-- A live application instance of class `MyApp` with one key handler
and, like every instance of the collaborator framework, no
`_trace_event` attribute. -/
def c9App : LiveApp Unit String :=
  { className := "MyApp",
    attrNames := ["compose", "on_key", "run"],
    methods := [("on_key", fun _ => "key handled")] }

/-- A debug configuration with layout analysis requested. -/
def c10Config : DebugConfig :=
  { trace_events := false, trace_widgets := false, trace_layout := true,
    profile_performance := false, log_file := none, verbose := false }

/-- The error channel of a finished validation run, whether or not a
pass raised (a raised exception carries the state accumulated before
it). -/
def errorsOf (r : Except (String × VState) VState) : List String :=
  match r with
  | .ok st => st.errors
  | .error e => e.2.errors

/-- Occurrence test: `n` is the attribute access `v.a` with a plain-name
base (the only shape `_validate_widgets` inspects). -/
def isDeprAttrOcc (v a : String) (n : Py) : Bool :=
  match n with
  | .attribute (.name v2) a2 => v2 == v && a2 == a
  | _ => false

/-- A state whose only error is the missing-import error. -/
def c5StA : VState :=
  { errors := [missingImportError], warnings := [], suggestions := [],
    fixes_applied := [] }

/-- A state with one error that is not a missing-import error. -/
def c5StB : VState :=
  { errors := ["No class inheriting from App found"], warnings := [],
    suggestions := [], fixes_applied := [] }

/-! ## Supporting lemmas -/

theorem splitOnChar_ne_nil (c : Char) (l : List Char) : splitOnChar c l ≠ [] := by
  cases l with
  | nil => simp [splitOnChar]
  | cons a as =>
    simp only [splitOnChar]
    cases h : splitOnChar c as with
    | nil => simp
    | cons x xs => by_cases hac : a == c <;> simp [hac]
/-- Joining the fields of a split restores the original text. -/
theorem join_split (c : Char) (l : List Char) :
    joinWithChar c (splitOnChar c l) = l := by
  induction l with
  | nil => simp [splitOnChar, joinWithChar]
  | cons a as ih =>
    simp only [splitOnChar]
    cases h : splitOnChar c as with
    | nil => exact absurd h (splitOnChar_ne_nil c as)
    | cons x xs =>
      rw [h] at ih
      by_cases hac : a = c
      · subst hac
        simp [joinWithChar, ih]
      · have hbe : (a == c) = false := by simp [hac]
        rw [hbe]
        simp only [Bool.false_eq_true, if_false]
        cases xs with
        | nil =>
          simp only [joinWithChar] at ih ⊢
          simp [ih]
        | cons y ys =>
          simp only [joinWithChar] at ih ⊢
          simp [ih]

theorem pyListSize_append (l1 l2 : List Py) :
    pyListSize (l1 ++ l2) = pyListSize l1 + pyListSize l2 := by
  induction l1 with
  | nil => simp [pyListSize]
  | cons a as ih => simp [pyListSize, ih]; omega

theorem pyListSize_toList (v : Option Py) : pyListSize v.toList = pyOptSize v := by
  cases v <;> simp [pyListSize, pyOptSize, Option.toList]

/-- Every node is exactly one heavier than its children list. -/
theorem pySize_children (n : Py) : pySize n = 1 + pyListSize (children n) := by
  cases n <;>
    simp [pySize, children, pyListSize, pyListSize_append, pyListSize_toList] <;>
    omega

/-- The fuel `pyListSize q` is exactly sufficient: the walk yields every
node of every tree in the queue exactly once. -/
theorem walkAux_length : ∀ (fuel : Nat) (q : List Py),
    pyListSize q ≤ fuel → (walkAux fuel q).length = pyListSize q := by
  intro fuel
  induction fuel with
  | zero =>
    intro q h
    cases q with
    | nil => simp [walkAux, pyListSize]
    | cons n rest =>
      have := pySize_children n
      simp [pyListSize] at h
      omega
  | succ f ih =>
    intro q h
    cases q with
    | nil => simp [walkAux, pyListSize]
    | cons n rest =>
      have hc := pySize_children n
      have hrec : pyListSize (rest ++ children n) ≤ f := by
        rw [pyListSize_append]
        simp [pyListSize] at h
        omega
      simp only [walkAux, List.length_cons, ih _ hrec, pyListSize_append]
      simp [pyListSize] at h ⊢
      omega

theorem walk_length (t : Py) : (walk t).length = pySize t := by
  have := walkAux_length (pySize t) [t] (by simp [pyListSize])
  simpa [walk, pyListSize] using this

/-! ### Lemmas about the live widget-tree extraction -/

mutual

theorem extract_map_name : ∀ (n : LiveNode) (p : Option String),
    (extract_widgets_from_node n p).map (fun w => w.name) = (subnodes n).map widgetName
  | .mk ty oid wid cls kids, p => by
    simp only [extract_widgets_from_node, subnodes, List.map_cons]
    rw [extractKids_map_name kids (ty ++ "_" ++ toString oid)]
    rfl

theorem extractKids_map_name : ∀ (l : List LiveNode) (s : String),
    (extractKids l s).map (fun w => w.name) = (subnodesList l).map widgetName
  | [], _ => rfl
  | c :: cs, s => by
    simp only [extractKids, subnodesList, List.map_append]
    rw [extract_map_name c (some s), extractKids_map_name cs s]

end

mutual

theorem extract_parent : ∀ (n : LiveNode) (p : Option String) (w : WidgetInfo),
    w ∈ extract_widgets_from_node n p →
    w.parent = p ∨ ∃ m, m ∈ subnodes n ∧ w.parent = some (widgetName m)
  | .mk ty oid wid cls kids, p, w => by
    intro hw
    simp only [extract_widgets_from_node, List.mem_cons] at hw
    rcases hw with h | h
    · left
      rw [h]
    · rcases extractKids_parent kids (ty ++ "_" ++ toString oid) w h with h1 | ⟨m, hm, h2⟩
      · right
        exact ⟨.mk ty oid wid cls kids, by simp [subnodes], h1⟩
      · right
        exact ⟨m, by simp [subnodes, hm], h2⟩

theorem extractKids_parent : ∀ (l : List LiveNode) (s : String) (w : WidgetInfo),
    w ∈ extractKids l s →
    w.parent = some s ∨ ∃ m, m ∈ subnodesList l ∧ w.parent = some (widgetName m)
  | [], _, w => by
    intro h
    simp [extractKids] at h
  | c :: cs, s, w => by
    intro h
    simp only [extractKids, List.mem_append] at h
    rcases h with h | h
    · rcases extract_parent c (some s) w h with h1 | ⟨m, hm, h2⟩
      · left
        exact h1
      · right
        exact ⟨m, by simp [subnodesList, hm], h2⟩
    · rcases extractKids_parent cs s w h with h1 | ⟨m, hm, h2⟩
      · left
        exact h1
      · right
        exact ⟨m, by simp [subnodesList, hm], h2⟩

end

mutual

theorem extract_children : ∀ (n : LiveNode) (p : Option String) (w : WidgetInfo),
    w ∈ extract_widgets_from_node n p →
    ∃ m, m ∈ subnodes n ∧ w.name = widgetName m ∧ w.children = strictDescNames m
  | .mk ty oid wid cls kids, p, w => by
    intro hw
    simp only [extract_widgets_from_node, List.mem_cons] at hw
    rcases hw with h | h
    · refine ⟨.mk ty oid wid cls kids, by simp [subnodes], ?_, ?_⟩
      · rw [h]
        rfl
      · rw [h]
        show (extractKids kids (ty ++ "_" ++ toString oid)).map (fun w => w.name) = _
        rw [extractKids_map_name]
        rfl
    · obtain ⟨m, hm, h1, h2⟩ := extractKids_children kids (ty ++ "_" ++ toString oid) w h
      exact ⟨m, by simp [subnodes, hm], h1, h2⟩

theorem extractKids_children : ∀ (l : List LiveNode) (s : String) (w : WidgetInfo),
    w ∈ extractKids l s →
    ∃ m, m ∈ subnodesList l ∧ w.name = widgetName m ∧ w.children = strictDescNames m
  | [], _, w => by
    intro h
    simp [extractKids] at h
  | c :: cs, s, w => by
    intro h
    simp only [extractKids, List.mem_append] at h
    rcases h with h | h
    · obtain ⟨m, hm, h1, h2⟩ := extract_children c (some s) w h
      exact ⟨m, by simp [subnodesList, hm], h1, h2⟩
    · obtain ⟨m, hm, h1, h2⟩ := extractKids_children cs s w h
      exact ⟨m, by simp [subnodesList, hm], h1, h2⟩

end

theorem extractKids_parent_isSome (l : List LiveNode) (s : String) (w : WidgetInfo)
    (h : w ∈ extractKids l s) : w.parent.isSome = true := by
  rcases extractKids_parent l s w h with h1 | ⟨m, _, h2⟩
  · simp [h1]
  · simp [h2]

mutual

theorem subnodes_sublist : ∀ (n m : LiveNode), m ∈ subnodes n →
    (subnodes m).Sublist (subnodes n)
  | .mk ty oid wid cls kids, m => by
    intro hm
    simp only [subnodes, List.mem_cons] at hm
    rcases hm with h | h
    · rw [h]
    · exact (subnodesList_sublist kids m h).trans (List.sublist_cons_self _ _)

theorem subnodesList_sublist : ∀ (l : List LiveNode) (m : LiveNode), m ∈ subnodesList l →
    (subnodes m).Sublist (subnodesList l)
  | [], m => by
    intro h
    simp [subnodesList] at h
  | c :: cs, m => by
    intro h
    simp only [subnodesList, List.mem_append] at h
    rcases h with h | h
    · exact (subnodes_sublist c m h).trans (List.sublist_append_left _ _)
    · exact (subnodesList_sublist cs m h).trans (List.sublist_append_right _ _)

end

/-- The strict-descendant list of a node is a sublist of its own subnode
list (drop the head). -/
theorem strictDesc_sublist_subnodes (m : LiveNode) :
    (subnodesList m.kids).Sublist (subnodes m) := by
  cases m with
  | mk ty oid wid cls kids =>
    show (subnodesList kids).Sublist (subnodes (.mk ty oid wid cls kids))
    rw [subnodes]
    exact List.sublist_cons_self _ _

/-- A snapshot extracted from a root with `parent := none` has exactly
one parentless entry: the root itself (every entry contributed by a
child subtree carries a `some` parent). -/
theorem extract_single_root (n : LiveNode) :
    ((extract_widgets_from_node n none).filter (fun w => w.parent.isNone)).length = 1 := by
  cases n with
  | mk ty oid wid cls kids =>
    rw [extract_widgets_from_node, List.filter_cons]
    have htail :
        (extractKids kids (ty ++ "_" ++ toString oid)).filter (fun w => w.parent.isNone) = [] := by
      rw [List.filter_eq_nil_iff]
      intro w hw
      have hs := extractKids_parent_isSome kids (ty ++ "_" ++ toString oid) w hw
      cases hp : w.parent with
      | none => rw [hp] at hs; simp at hs
      | some s => simp [hp]
    simp [htail]

/-! ## Claim theorems -/

/-- C3 (counterexample): on the three-level graph `chainScreen`
(screen → container → button), the snapshot of a completed walk violates
the claim: the children sequence of a node is not the set of nodes whose
parent names it — `Button_3` sits in `Screen_1`'s children although its
parent is `Vertical_2` — and `Button_3` appears in the children
sequences of two distinct nodes (it is double-parented). -/
theorem widget_children_contain_descendants_cex :
    (¬ ∀ w ∈ get_widget_tree chainApp, ∀ c ∈ w.children,
        ∀ w2 ∈ get_widget_tree chainApp, w2.name = c → w2.parent = some w.name)
    ∧ ((get_widget_tree chainApp).countP (fun w => w.children.contains "Button_3")) = 2 := by
  constructor
  · decide
  · decide

/-- C3 (amended): for every completed live walk from a root with
pairwise-distinct widget names (guaranteed in Python because the name
embeds the unique `id()` of the live object): every `WidgetInfo.parent`
is either `none` (the root) or the name of another `WidgetInfo` present
in the snapshot; exactly one node is parentless; each node's `children`
sequence is the name list of ALL of its strict descendants (hence a name
recurs in the children of each of its ancestors, though never twice
within one node's children); and every children entry names a node
present in the snapshot. -/
theorem widget_tree_snapshot_invariants (app : AppInstance)
    (hctx : app.hasContext = true)
    (hnodup : ((subnodes app.screen).map widgetName).Nodup) :
    (∀ w ∈ get_widget_tree app, w.parent = none ∨
      ∃ w2 ∈ get_widget_tree app, some w2.name = w.parent)
    ∧ ((get_widget_tree app).filter (fun w => w.parent.isNone)).length = 1
    ∧ (∀ w ∈ get_widget_tree app, ∃ m ∈ subnodes app.screen,
        w.name = widgetName m ∧ w.children = strictDescNames m)
    ∧ (∀ w ∈ get_widget_tree app, ∀ c ∈ w.children,
        ∃ w2 ∈ get_widget_tree app, w2.name = c)
    ∧ (∀ w ∈ get_widget_tree app, w.children.Nodup) := by
  have hS : get_widget_tree app = extract_widgets_from_node app.screen none := by
    simp [get_widget_tree, hctx]
  have hnames : (extract_widgets_from_node app.screen none).map (fun w => w.name)
      = (subnodes app.screen).map widgetName := extract_map_name app.screen none
  have hmemname : ∀ m ∈ subnodes app.screen,
      ∃ w2 ∈ extract_widgets_from_node app.screen none, w2.name = widgetName m := by
    intro m hm
    have h1 : widgetName m ∈ (subnodes app.screen).map widgetName :=
      List.mem_map_of_mem _ hm
    rw [← hnames] at h1
    obtain ⟨w2, hw2, he⟩ := List.mem_map.mp h1
    exact ⟨w2, hw2, he⟩
  rw [hS]
  refine ⟨?_, extract_single_root app.screen, ?_, ?_, ?_⟩
  · intro w hw
    rcases extract_parent app.screen none w hw with h1 | ⟨m, hm, h2⟩
    · exact Or.inl h1
    · right
      obtain ⟨w2, hw2, he⟩ := hmemname m hm
      exact ⟨w2, hw2, by rw [he, h2]⟩
  · intro w hw
    obtain ⟨m, hm, h1, h2⟩ := extract_children app.screen none w hw
    exact ⟨m, hm, h1, h2⟩
  · intro w hw c hc
    obtain ⟨m, hm, h1, h2⟩ := extract_children app.screen none w hw
    rw [h2] at hc
    obtain ⟨m2, hm2, he2⟩ := List.mem_map.mp hc
    have hsub : (subnodesList m.kids).Sublist (subnodes app.screen) :=
      (strictDesc_sublist_subnodes m).trans (subnodes_sublist app.screen m hm)
    obtain ⟨w2, hw2, he⟩ := hmemname m2 (hsub.subset hm2)
    exact ⟨w2, hw2, by rw [he, he2]⟩
  · intro w hw
    obtain ⟨m, hm, h1, h2⟩ := extract_children app.screen none w hw
    rw [h2]
    have hsub : (subnodesList m.kids).Sublist (subnodes app.screen) :=
      (strictDesc_sublist_subnodes m).trans (subnodes_sublist app.screen m hm)
    exact List.Nodup.sublist (hsub.map widgetName) hnodup

/-- An error list with no missing-import entry leaves the fix fold
untouched. -/
theorem foldl_fix_id (errors : List String) (content : String)
    (h : errors.all (fun e => !(strContains e "Missing required import")) = true) :
    errors.foldl
      (fun c e => if strContains e "Missing required import" then fix_missing_imports c else c)
      content = content := by
  induction errors generalizing content with
  | nil => rfl
  | cons e rest ih =>
    simp only [List.all_cons, Bool.and_eq_true, Bool.not_eq_true'] at h
    simp only [List.foldl_cons, h.1, Bool.false_eq_true, if_false]
    exact ih content h.2

/-- An attribute-access occurrence of a deprecated identifier makes
`_validate_widgets` produce exactly the both-slots message. -/
theorem isDeprAttrOcc_widget_error (v a : String) (n : Py)
    (hn : isDeprAttrOcc v a n = true)
    (hdep : DEPRECATED_WIDGETS.contains a = true) :
    widget_error_of n = some (deprecatedMsg a) := by
  unfold isDeprAttrOcc at hn
  split at hn
  · next v2 a2 =>
    simp only [Bool.and_eq_true, beq_iff_eq] at hn
    obtain ⟨h1, h2⟩ := hn
    subst h2
    simp only [widget_error_of]
    rw [hdep]
    rfl
  · simp at hn

/-- The error channel of a finished run is the concatenation of the four
error-producing passes, whether or not the performance pass raises. -/
theorem errorsOf_run_validators (tree : Py) :
    errorsOf (run_validators tree)
      = import_errors (walk tree) ++ class_errors (walk tree)
        ++ widget_errors (walk tree) ++ css_errors (walk tree) := by
  cases hp : perf_result (walk tree) with
  | ok pr =>
    obtain ⟨s, w⟩ := pr
    simp [run_validators, errorsOf, hp]
  | error pe =>
    obtain ⟨m, s⟩ := pe
    simp [run_validators, errorsOf, hp]

/-- C1: for every source file that parses successfully, `validate_file`
returns PASS exactly when the accumulated error sequence is empty when
the run finishes (after any auto-fix attempt and after a caught
validation exception is appended); in particular, whenever the passes
accumulate no Error at all, the verdict is PASS no matter how many
Warnings or Suggestions were accumulated. -/
theorem validator_pass_iff_errors_empty (tree : Py) (content : String) (fixFlag : Bool) :
    ((validate_file tree content fixFlag).1 = true ↔
      (validate_file tree content fixFlag).2.1.errors = [])
    ∧ (∀ st, run_validators tree = .ok st → st.errors = [] →
        (validate_file tree content fixFlag).1 = true) := by
  cases hrv : run_validators tree with
  | ok st =>
    constructor
    · simp only [validate_file, hrv]
      cases hc : (fixFlag && !st.errors.isEmpty) <;> simp [List.isEmpty_iff]
    · intro st2 hok he
      injection hok with h
      subst h
      simp [validate_file, hrv, he]
  | error e =>
    obtain ⟨msg, st⟩ := e
    constructor
    · simp [validate_file, hrv]
    · intro st2 hok
      exact absurd hok (by simp)

/-- C1 (witness): the fully well-formed file `goodTree` produces the
empty state and PASSes. -/
theorem validator_pass_iff_errors_empty_witness :
    run_validators goodTree = .ok initState
    ∧ initState.errors = []
    ∧ (validate_file goodTree c4FixContent false).1 = true :=
  ⟨rfl, rfl,
   (validator_pass_iff_errors_empty goodTree c4FixContent false).2 initState rfl rfl⟩

/-- C2 (code bug): on the spec's example file (`class MyApp(App)` whose
body is only a single-yield `compose`), the Widget Analyzer indeed emits
no unknown-widget warning for `Button` and the fewer-than-two-yields
Warning fires; but the Structural Validator does NOT pass: only
`ast.Attribute` base nodes are inspected, so the plain-name base `App`
is not recognised and the Error `No class inheriting from App found` is
appended (besides the missing-import Error for this import-less
file). -/
theorem structural_validator_misses_name_base :
    run_validators c2Tree = .ok c2State
    ∧ "No class inheriting from App found" ∈ c2State.errors
    ∧ "compose method should yield at least Header and Footer" ∈ c2State.warnings
    ∧ c2State.warnings.all
        (fun w => !(strStartsWith w "Unknown widget or container")) = true :=
  ⟨rfl, by decide, by decide, by decide⟩

/-- C5: in every run of the Auto-Fix Engine, a FixRecord is appended
only when the file text was actually rewritten (an unchanged text leaves
the whole state untouched); a successful repair appends exactly one
FixRecord, clears the entire error set and appends the re-run Warning,
leaving suggestions alone; and an error set containing no missing-import
error leaves both the text and every state channel unchanged. -/
theorem autofix_engine_contract (st : VState) (content : String) :
    ((attempt_fixes st content).2 = content → (attempt_fixes st content).1 = st)
    ∧ ((attempt_fixes st content).2 ≠ content →
        (attempt_fixes st content).1.fixes_applied
            = st.fixes_applied ++ ["Fixed missing imports"]
        ∧ (attempt_fixes st content).1.errors = []
        ∧ (attempt_fixes st content).1.warnings
            = st.warnings ++ ["Auto-fixes applied. Re-run validation."]
        ∧ (attempt_fixes st content).1.suggestions = st.suggestions)
    ∧ (st.errors.all (fun e => !(strContains e "Missing required import")) = true →
        attempt_fixes st content = (st, content)) := by
  by_cases h : st.errors.foldl
      (fun c e => if strContains e "Missing required import" then fix_missing_imports c else c)
      content = content
  · refine ⟨fun _ => by simp [attempt_fixes, h], ?_, fun hall => by simp [attempt_fixes, h]⟩
    intro hne
    exact absurd (by simp [attempt_fixes, h]) hne
  · refine ⟨?_, fun _ => by simp [attempt_fixes, h], ?_⟩
    · intro heq
      rw [show (attempt_fixes st content).2
            = st.errors.foldl (fun c e =>
                if strContains e "Missing required import" then fix_missing_imports c else c)
              content from by simp [attempt_fixes, h]] at heq
      exact absurd heq h
    · intro hall
      exact absurd (foldl_fix_id st.errors content hall) h

/-- C5 (witness): the contract instantiated at a state whose only error
is the missing import (the text `x` is rewritten) and at a state with
only a structural error (nothing changes). -/
theorem autofix_engine_contract_witness :
    ((attempt_fixes c5StA "x").2 ≠ "x"
      ∧ ((attempt_fixes c5StA "x").1.fixes_applied
            = c5StA.fixes_applied ++ ["Fixed missing imports"]
         ∧ (attempt_fixes c5StA "x").1.errors = []
         ∧ (attempt_fixes c5StA "x").1.warnings
            = c5StA.warnings ++ ["Auto-fixes applied. Re-run validation."]
         ∧ (attempt_fixes c5StA "x").1.suggestions = c5StA.suggestions))
    ∧ (c5StB.errors.all (fun e => !(strContains e "Missing required import")) = true
       ∧ attempt_fixes c5StB "y" = (c5StB, "y")) :=
  ⟨⟨by decide, (autofix_engine_contract c5StA "x").2.1 (by decide)⟩,
   ⟨by decide, (autofix_engine_contract c5StB "y").2.2 (by decide)⟩⟩

/-- C6 (counterexample): the Style-Block Validator does NOT emit exactly
one Error for the single-line block `Screen { background: red;` — the
line trips both the unclosed-block check and the brace-count check. -/
theorem css_unbalanced_brace_two_errors_cex :
    ¬ ((css_errors (walk c6Tree)).length = 1) := by decide

/-- C6 (amended): for that block the validator emits exactly two Errors
— an unclosed-block Error and a mismatched-braces Error — both citing
line 1, the line holding the unmatched opening brace. -/
theorem css_unbalanced_brace_two_errors :
    css_errors (walk c6Tree) =
      ["Unclosed CSS block starting at line 1",
       "Mismatched braces in CSS at line 1"] := by decide

/-- C7 (counterexample): `FooterTui` is in the deprecated set and occurs
in the validated file `c7Tree` (as the bare-name call `FooterTui()`),
yet no Error at all is emitted: `_validate_widgets` inspects only
attribute accesses with a plain-name base. -/
theorem deprecated_bare_name_no_error_cex :
    DEPRECATED_WIDGETS.contains "FooterTui" = true
    ∧ (walk c7Tree).any
        (fun n => match n with | .name i => i == "FooterTui" | _ => false) = true
    ∧ widget_errors (walk c7Tree) = []
    ∧ (errorsOf (run_validators c7Tree)).all
        (fun e => !(strContains e "Deprecated")) = true :=
  ⟨by decide, by decide, by decide, by decide⟩

/-- C7 (amended): every occurrence of a deprecated identifier as an
attribute access with a plain-name base (`x.W`, the only shape the pass
inspects) produces an Error in the final validator state, and that Error
fills the replacement slot with the deprecated identifier itself — the
deprecated set stores no replacement names; bare-name occurrences
produce no Error (see the counterexample). -/
theorem deprecated_attribute_occurrence_error (tree : Py) (v a : String)
    (hocc : (walk tree).any (isDeprAttrOcc v a) = true)
    (hdep : DEPRECATED_WIDGETS.contains a = true) :
    deprecatedMsg a ∈ errorsOf (run_validators tree) := by
  have hmem : deprecatedMsg a ∈ widget_errors (walk tree) := by
    obtain ⟨n, hn, hmatch⟩ := List.any_eq_true.mp hocc
    exact List.mem_filterMap.mpr ⟨n, hn, isDeprAttrOcc_widget_error v a n hmatch hdep⟩
  rw [errorsOf_run_validators]
  exact List.mem_append.mpr (Or.inl (List.mem_append.mpr (Or.inr hmem)))

/-- C7 (witness): the amended statement instantiated on the file
`c7bTree`, which contains `x.FooterTui`. -/
theorem deprecated_attribute_occurrence_error_witness :
    ((walk c7bTree).any (isDeprAttrOcc "x" "FooterTui") = true
      ∧ DEPRECATED_WIDGETS.contains "FooterTui" = true)
    ∧ deprecatedMsg "FooterTui" ∈ errorsOf (run_validators c7bTree) :=
  ⟨⟨by decide, by decide⟩,
   deprecated_attribute_occurrence_error c7bTree "x" "FooterTui" (by decide) (by decide)⟩

/-- C8 (code bug): `depth6Widgets` is a widget tree whose maximum
nesting depth (as the unreachable tail of `analyze_layout` would compute
it) is exactly 6, yet no deep-nesting Warning can be produced: the
function raises the `list > int` TypeError on this input — as on every
input — before the nesting-depth walk runs. -/
theorem analyze_layout_raises_on_depth6 :
    max_nesting_depth depth6Widgets = 6
    ∧ analyze_layout depth6Widgets = Except.error layoutTypeErrorMsg :=
  ⟨by decide, rfl⟩

/-- C9 (code bug): `_setup_event_tracing` wraps the `on_key` method of
the instance `c9App`, but invoking the wrapped handler does not record
an `EventInfo` and delegate: the wrapper's `self` is the application
instance, which has no `_trace_event` attribute, so the call raises
`AttributeError` — while the unwrapped handler returns normally.  The
wrapping is therefore not transparent. -/
theorem event_wrapper_raises_attribute_error :
    wrappedHandlerNames c9App = ["on_key"]
    ∧ original_handler_call c9App "on_key" () = Except.ok "key handled"
    ∧ c9App.hasAttr "_trace_event" = false
    ∧ traced_handler_call c9App "on_key" ()
        = Except.error
            "AttributeError: \x27MyApp\x27 object has no attribute \x27_trace_event\x27" :=
  ⟨rfl, rfl, rfl, rfl⟩

/-- C10: `analyze_layout` raises the `list > int` TypeError on every
input — the empty list included — before emitting any nesting-depth or
container statistics; the exception escapes to `analyze_app_file`'s
generic handler, so whenever the layout section was requested the
output is the widget section followed by the generic
`Error analyzing app:` line, and the layout-analysis section is never
produced. -/
theorem analyze_layout_always_raises :
    (∀ ws : List WidgetInfo, analyze_layout ws = Except.error layoutTypeErrorMsg)
    ∧ (∀ (tree : Py) (config : DebugConfig) (profileOut : List String),
        (config.trace_layout || config.verbose) = true →
        analyze_app_file tree config profileOut
          = widget_section tree config
            ++ ["Error analyzing app: " ++ layoutTypeErrorMsg]) := by
  constructor
  · intro ws
    rfl
  · intro tree config profileOut h
    unfold analyze_app_file
    rw [h]
    rfl

/-- C10 (witness): the caught-TypeError output shape at a concrete file
and configuration requesting layout analysis. -/
theorem analyze_layout_always_raises_witness :
    (c10Config.trace_layout || c10Config.verbose) = true
    ∧ analyze_app_file c2Tree c10Config []
        = widget_section c2Tree c10Config
          ++ ["Error analyzing app: " ++ layoutTypeErrorMsg] :=
  ⟨rfl, (analyze_layout_always_raises).2 c2Tree c10Config [] rfl⟩

/-! ### Lemmas for the auto-fix round trip -/

theorem walk_module (body : List Py) :
    walk (Py.module body) = Py.module body :: walkAux (pyListSize body) body := by
  show walkAux (pySize (Py.module body)) [Py.module body] = _
  rw [show pySize (Py.module body) = pyListSize body + 1 from by
    simp [pySize]
    omega]
  show Py.module body :: walkAux (pyListSize body) ([] ++ children (Py.module body)) = _
  rw [List.nil_append]
  rfl

theorem walk_module_cons_import (body : List Py) :
    walk (Py.module (newImportNode :: body))
      = Py.module (newImportNode :: body) :: newImportNode
          :: walkAux (pyListSize body) body := by
  show walkAux (pySize (Py.module (newImportNode :: body)))
      [Py.module (newImportNode :: body)] = _
  rw [show pySize (Py.module (newImportNode :: body)) = (pyListSize body + 1) + 1 from by
    simp [pySize, pyListSize, newImportNode]
    omega]
  show Py.module (newImportNode :: body)
      :: walkAux (pyListSize body + 1)
          ([] ++ children (Py.module (newImportNode :: body))) = _
  rw [List.nil_append]
  show _ :: newImportNode
      :: walkAux (pyListSize body) (body ++ children newImportNode) = _
  rw [show children newImportNode = [] from rfl, List.append_nil]

/-- Prepending the import statement leaves the class-structure errors
unchanged (module and import nodes are skipped by the pass). -/
theorem class_errors_prepend (body : List Py) :
    class_errors (walk (Py.module (newImportNode :: body)))
      = class_errors (walk (Py.module body)) := by
  rw [walk_module_cons_import, walk_module]
  rfl

theorem widget_errors_prepend (body : List Py) :
    widget_errors (walk (Py.module (newImportNode :: body)))
      = widget_errors (walk (Py.module body)) := by
  rw [walk_module_cons_import, walk_module]
  rfl

theorem css_errors_prepend (body : List Py) :
    css_errors (walk (Py.module (newImportNode :: body)))
      = css_errors (walk (Py.module body)) := by
  rw [walk_module_cons_import, walk_module]
  rfl

theorem perf_result_prepend (body : List Py) :
    perf_result (walk (Py.module (newImportNode :: body)))
      = perf_result (walk (Py.module body)) := by
  rw [walk_module_cons_import, walk_module]
  rfl

/-- The import-collection fold accumulates on the right of its
accumulator. -/
theorem collect_foldl_append (nodes : List Py) (acc : List String) :
    nodes.foldl importStep acc = acc ++ nodes.foldl importStep [] := by
  induction nodes generalizing acc with
  | nil => simp
  | cons n rest ih =>
    rw [List.foldl_cons, List.foldl_cons, ih (importStep acc n), ih (importStep [] n),
      ← List.append_assoc]
    congr 1
    cases n
    case importFrom mod names =>
      simp only [importStep]
      split <;> simp
    all_goals simp [importStep]

/-- After the fix, the imports set contains `App`, so the missing-import
error is no longer triggered. -/
theorem import_errors_retree (body : List Py) :
    import_errors (walk (Py.module (newImportNode :: body))) = [] := by
  rw [walk_module_cons_import]
  have hcol : collectImports (Py.module (newImportNode :: body) :: newImportNode
      :: walkAux (pyListSize body) body)
      = ["App", "ComposeResult"]
        ++ (walkAux (pyListSize body) body).foldl importStep [] := by
    show (walkAux (pyListSize body) body).foldl importStep
        (importStep (importStep [] (Py.module (newImportNode :: body))) newImportNode) = _
    rw [show importStep (importStep [] (Py.module (newImportNode :: body))) newImportNode
        = ["App", "ComposeResult"] from rfl]
    exact collect_foldl_append _ _
  unfold import_errors
  rw [hcol]
  rfl

/-- Without any `from textual.app import` line the fix loop finds
nothing to extend. -/
theorem fixFirstImportLine_none (lines : List (List Char))
    (h : lines.all (fun l => !(startsWithL l "from textual.app import".data)) = true) :
    fixFirstImportLine lines = none := by
  induction lines with
  | nil => rfl
  | cons l ls ih =>
    simp only [List.all_cons, Bool.and_eq_true, Bool.not_eq_true'] at h
    simp only [fixFirstImportLine, h.1, Bool.false_eq_true, if_false]
    rw [ih h.2]

/-- On a file with no `from textual.app import` line the fix prepends
the combined import line. -/
theorem fix_missing_imports_prepends (content : String)
    (h : (splitOnChar '\n' content.data).all
      (fun l => !(startsWithL l "from textual.app import".data)) = true) :
    fix_missing_imports content
      = "from textual.app import App, ComposeResult\n" ++ content := by
  simp only [fix_missing_imports]
  rw [fixFirstImportLine_none _ h]
  cases hs : splitOnChar '\n' content.data with
  | nil => exact absurd hs (splitOnChar_ne_nil _ _)
  | cons x xs =>
    show String.mk (joinWithChar '\n'
        ("from textual.app import App, ComposeResult".data :: x :: xs)) = _
    rw [show joinWithChar '\n'
          ("from textual.app import App, ComposeResult".data :: x :: xs)
        = "from textual.app import App, ComposeResult".data
            ++ '\n' :: joinWithChar '\n' (x :: xs) from rfl]
    rw [← hs, join_split]
    rfl

set_option maxRecDepth 8192 in
/-- C4 (counterexample): the file `c4Tree`/`c4Content` satisfies the
claim's premise, that its only validation Error is the missing base
one — but it already holds a `from textual.app import` line (a line
that imports only `ComposeResult`), so `_fix_missing_imports` changes
nothing: the Auto-Fix Engine leaves the file unwritten and the error
set uncleared, fix-enabled validation still FAILs, and re-parsing the
unchanged file triggers the same missing-import Error again. -/
theorem autofix_existing_import_line_cex :
    run_validators c4Tree = .ok c4State
    ∧ c4State.errors = [missingImportError]
    ∧ attempt_fixes c4State c4Content = (c4State, c4Content)
    ∧ (validate_file c4Tree c4Content true).1 = false :=
  ⟨rfl, rfl, by decide, by decide⟩

/-- C4 (amended): for every file whose only validation Error is the
missing base import (stated channel-wise: the import pass emits exactly
that Error and the class/widget/style passes emit none) and whose text
contains no line starting with `from textual.app import`: fix-enabled
validation rewrites the file by prepending the combined import line;
re-parsing the result yields the original module body prefixed by the
new import statement, whose re-validation no longer triggers the
missing-import Error (its error channel is empty); and a second run of
the Auto-Fix Engine on the re-validated result is a no-op — the content
is returned unchanged and no FixRecord is appended. -/
theorem autofix_roundtrip_idempotent (body : List Py) (content : String) (st : VState)
    (hrun : run_validators (Py.module body) = .ok st)
    (himp : import_errors (walk (Py.module body)) = [missingImportError])
    (hcls : class_errors (walk (Py.module body)) = [])
    (hwid : widget_errors (walk (Py.module body)) = [])
    (hcss : css_errors (walk (Py.module body)) = [])
    (hnoline : (splitOnChar '\n' content.data).all
        (fun l => !(startsWithL l "from textual.app import".data)) = true) :
    st.errors = [missingImportError]
    ∧ (attempt_fixes st content).2
        = "from textual.app import App, ComposeResult\n" ++ content
    ∧ (attempt_fixes st content).1.errors = []
    ∧ (attempt_fixes st content).1.fixes_applied
        = st.fixes_applied ++ ["Fixed missing imports"]
    ∧ (attempt_fixes st content).1.warnings
        = st.warnings ++ ["Auto-fixes applied. Re-run validation."]
    ∧ errorsOf (run_validators (Py.module (newImportNode :: body))) = []
    ∧ (∃ st2, run_validators (Py.module (newImportNode :: body)) = .ok st2)
    ∧ (∀ st2, run_validators (Py.module (newImportNode :: body)) = .ok st2 →
        attempt_fixes st2 ((attempt_fixes st content).2)
          = (st2, (attempt_fixes st content).2)) := by
  have herr : st.errors = [missingImportError] := by
    have h := congrArg errorsOf hrun
    rw [errorsOf_run_validators, himp, hcls, hwid, hcss] at h
    simpa [errorsOf] using h.symm
  have hfix : fix_missing_imports content
      = "from textual.app import App, ComposeResult\n" ++ content :=
    fix_missing_imports_prepends content hnoline
  have hne : ("from textual.app import App, ComposeResult\n" ++ content) ≠ content := by
    intro he
    have hlen := congrArg String.length he
    rw [String.length_append] at hlen
    rw [show ("from textual.app import App, ComposeResult\n").length = 43 from by decide] at hlen
    omega
  have hfold : st.errors.foldl
      (fun c e => if strContains e "Missing required import" then fix_missing_imports c else c)
      content
      = "from textual.app import App, ComposeResult\n" ++ content := by
    rw [herr]
    show (if strContains missingImportError "Missing required import"
          then fix_missing_imports content else content) = _
    rw [if_pos (by decide : strContains missingImportError "Missing required import" = true)]
    exact hfix
  have haf : attempt_fixes st content
      = ({ st with
            fixes_applied := st.fixes_applied ++ ["Fixed missing imports"]
            errors := []
            warnings := st.warnings ++ ["Auto-fixes applied. Re-run validation."] },
         "from textual.app import App, ComposeResult\n" ++ content) := by
    unfold attempt_fixes
    rw [hfold, if_neg hne]
  have herr2 : errorsOf (run_validators (Py.module (newImportNode :: body))) = [] := by
    rw [errorsOf_run_validators, import_errors_retree, class_errors_prepend,
      widget_errors_prepend, css_errors_prepend, hcls, hwid, hcss]
    rfl
  refine ⟨herr, by rw [haf], by rw [haf], by rw [haf], by rw [haf], herr2, ?_, ?_⟩
  · cases hp : perf_result (walk (Py.module body)) with
    | ok pr =>
      obtain ⟨s, w⟩ := pr
      have hp2 : perf_result (walk (Py.module (newImportNode :: body))) = .ok (s, w) := by
        rw [perf_result_prepend]
        exact hp
      refine ⟨⟨import_errors (walk (Py.module (newImportNode :: body)))
            ++ class_errors (walk (Py.module (newImportNode :: body)))
            ++ widget_errors (walk (Py.module (newImportNode :: body)))
            ++ css_errors (walk (Py.module (newImportNode :: body))),
          import_warnings (walk (Py.module (newImportNode :: body)))
            ++ class_warnings (walk (Py.module (newImportNode :: body)))
            ++ layout_warnings (walk (Py.module (newImportNode :: body)))
            ++ handler_warnings (walk (Py.module (newImportNode :: body)))
            ++ css_warnings (walk (Py.module (newImportNode :: body)))
            ++ bp_warnings (walk (Py.module (newImportNode :: body)))
            ++ w,
          class_suggestions (walk (Py.module (newImportNode :: body)))
            ++ bp_suggestions (walk (Py.module (newImportNode :: body)))
            ++ s,
          []⟩, ?_⟩
      simp only [run_validators]
      rw [hp2]
    | error pe =>
      obtain ⟨m, s2⟩ := pe
      simp only [run_validators, hp] at hrun
      exact Except.noConfusion hrun
  · intro st2 hok
    have he2 : st2.errors = [] := by
      have h := congrArg errorsOf hok
      rw [herr2] at h
      simpa [errorsOf] using h.symm
    unfold attempt_fixes
    rw [he2]
    simp

/-- C4 (witness): the amended round trip instantiated on the concrete
file `Py.module c4FixBody` / `c4FixContent`. -/
theorem autofix_roundtrip_idempotent_witness :
    (run_validators (Py.module c4FixBody) = .ok c4FixState
      ∧ import_errors (walk (Py.module c4FixBody)) = [missingImportError]
      ∧ class_errors (walk (Py.module c4FixBody)) = []
      ∧ widget_errors (walk (Py.module c4FixBody)) = []
      ∧ css_errors (walk (Py.module c4FixBody)) = []
      ∧ (splitOnChar '\n' c4FixContent.data).all
          (fun l => !(startsWithL l "from textual.app import".data)) = true)
    ∧ (c4FixState.errors = [missingImportError]
      ∧ (attempt_fixes c4FixState c4FixContent).2
          = "from textual.app import App, ComposeResult\n" ++ c4FixContent
      ∧ (attempt_fixes c4FixState c4FixContent).1.errors = []
      ∧ (attempt_fixes c4FixState c4FixContent).1.fixes_applied
          = c4FixState.fixes_applied ++ ["Fixed missing imports"]
      ∧ (attempt_fixes c4FixState c4FixContent).1.warnings
          = c4FixState.warnings ++ ["Auto-fixes applied. Re-run validation."]
      ∧ errorsOf (run_validators (Py.module (newImportNode :: c4FixBody))) = []
      ∧ (∃ st2, run_validators (Py.module (newImportNode :: c4FixBody)) = .ok st2)
      ∧ (∀ st2, run_validators (Py.module (newImportNode :: c4FixBody)) = .ok st2 →
          attempt_fixes st2 ((attempt_fixes c4FixState c4FixContent).2)
            = (st2, (attempt_fixes c4FixState c4FixContent).2))) :=
  ⟨⟨rfl, rfl, rfl, rfl, rfl, by decide⟩,
   autofix_roundtrip_idempotent c4FixBody c4FixContent c4FixState rfl rfl rfl rfl rfl
     (by decide)⟩

/-- C3 (witness): the amended invariants instantiated on the concrete
three-level graph `chainApp`. -/
theorem widget_tree_snapshot_invariants_witness :
    (chainApp.hasContext = true
      ∧ ((subnodes chainApp.screen).map widgetName).Nodup)
    ∧ ((∀ w ∈ get_widget_tree chainApp, w.parent = none ∨
          ∃ w2 ∈ get_widget_tree chainApp, some w2.name = w.parent)
       ∧ ((get_widget_tree chainApp).filter (fun w => w.parent.isNone)).length = 1
       ∧ (∀ w ∈ get_widget_tree chainApp, ∃ m ∈ subnodes chainApp.screen,
            w.name = widgetName m ∧ w.children = strictDescNames m)
       ∧ (∀ w ∈ get_widget_tree chainApp, ∀ c ∈ w.children,
            ∃ w2 ∈ get_widget_tree chainApp, w2.name = c)
       ∧ (∀ w ∈ get_widget_tree chainApp, w.children.Nodup)) :=
  ⟨⟨rfl, by decide⟩, widget_tree_snapshot_invariants chainApp rfl (by decide)⟩

end Textual
